import Mathlib

/-!
Verification development for the `star_ray_pygame` package, a pygame/cairosvg
UI backend. The Python modules `star_ray_pygame/cairosurface.py` and
`star_ray_pygame/view.py` are shallowly embedded below: geometry is modelled
over `ℚ` (the code uses Python floats; all inputs appearing in the claims are
exactly representable), Python exceptions are modelled by an explicit error
type, and fallible code returns `Except`.
-/

namespace StarRayPygame

/-- Model of the Python exception classes that the embedded code can raise.
`notSupportedError` models the spec-level `NotSupportedError` class, which
does not occur anywhere in the source; it is included so that statements
about it can be expressed. -/
inductive PyError where
  | assertionError
  | typeError
  | valueError
  | keyError
  | zeroDivisionError
  | notImplementedError
  | notSupportedError
deriving DecidableEq, Repr

/-- Result of running a piece of Python code that may raise. -/
abbrev Py (α : Type) : Type := Except PyError α

instance {ε α : Type} [DecidableEq ε] [DecidableEq α] : DecidableEq (Except ε α) :=
  fun x y =>
    match x, y with
    | .ok a, .ok b =>
      if h : a = b then .isTrue (by rw [h]) else .isFalse (fun hc => by cases hc; exact h rfl)
    | .error a, .error b =>
      if h : a = b then .isTrue (by rw [h]) else .isFalse (fun hc => by cases hc; exact h rfl)
    | .ok _, .error _ => .isFalse (fun hc => by cases hc)
    | .error _, .ok _ => .isFalse (fun hc => by cases hc)

/-- Python float (`ℚ` in this model) division: raises `ZeroDivisionError` on a
zero denominator, as Python's `/` does. -/
def pyDiv (a b : ℚ) : Py ℚ :=
  if b = 0 then .error .zeroDivisionError else .ok (a / b)

/-- Whitespace test used by Python's `int()`/`float()` when stripping string
arguments. -/
def isPySpace (c : Char) : Bool :=
  c = ' ' || c = '\t' || c = '\n' || c = '\r' || c = '\x0b' || c = '\x0c'

/-- Strip leading and trailing whitespace from a character list (the string
stripping Python's numeric constructors perform). -/
def stripChars (cs : List Char) : List Char :=
  ((cs.dropWhile isPySpace).reverse.dropWhile isPySpace).reverse

/-- Numeric value of a list of decimal digit characters. -/
def digitsVal (cs : List Char) : Nat :=
  cs.foldl (fun n c => 10 * n + (c.toNat - 48)) 0

/-- The digit run of an `int()` argument after sign handling: must be a
non-empty run of decimal digits. -/
def pyIntDigits (body : List Char) (neg : Bool) : Py Int :=
  if body ≠ [] ∧ body.all Char.isDigit then
    .ok (if neg then -(digitsVal body : Int) else (digitsVal body : Int))
  else .error .valueError

/-- Sign handling of an `int()` argument. -/
def pyIntParse : List Char → Py Int
  | [] => .error .valueError
  | c :: rest =>
    if c = '-' then pyIntDigits rest true
    else if c = '+' then pyIntDigits rest false
    else pyIntDigits (c :: rest) false

/-- Modelled from Python's built-in `int()` applied to a string: surrounding
whitespace is stripped, an optional single sign is allowed, and the remainder
must be a non-empty run of decimal digits; anything else raises `ValueError`.
(Underscore digit separators and non-ASCII digits are outside this model;
no input in this development uses them.) -/
def pyIntCore (cs : List Char) : Py Int :=
  pyIntParse (stripChars cs)

/-- `int(s)` for a Python string `s`. -/
def pyIntOfString (s : String) : Py Int := pyIntCore s.data

/-- `int(node.get(k))` where the attribute is required: Python's `get` returns
`None` when the attribute is absent and `int(None)` raises `TypeError`. -/
def pyIntReq (a : Option String) : Py Int :=
  match a with
  | none => .error .typeError
  | some s => pyIntOfString s

/-- `int(node.get(k, 0))`: an absent attribute defaults to the Python int `0`. -/
def pyIntDef (a : Option String) : Py Int :=
  match a with
  | none => .ok 0
  | some s => pyIntOfString s

/-- The mantissa of a `float()` argument after sign handling: `digits`,
`digits.digits`, `digits.` or `.digits`. -/
def pyFloatDigits (body : List Char) (neg : Bool) : Py ℚ :=
  let intPart := body.takeWhile Char.isDigit
  let parsed : Py ℚ :=
    match body.dropWhile Char.isDigit with
    | [] =>
      if intPart ≠ [] then .ok ((digitsVal intPart : ℚ)) else .error .valueError
    | d :: frac =>
      if d = '.' ∧ frac.all Char.isDigit ∧ (intPart ≠ [] ∨ frac ≠ []) then
        .ok ((digitsVal intPart : ℚ) + (digitsVal frac : ℚ) / (10 : ℚ) ^ frac.length)
      else .error .valueError
  match parsed with
  | .error e => .error e
  | .ok v => .ok (if neg then -v else v)

/-- Sign handling of a `float()` argument. -/
def pyFloatParse : List Char → Py ℚ
  | [] => .error .valueError
  | c :: rest =>
    if c = '-' then pyFloatDigits rest true
    else if c = '+' then pyFloatDigits rest false
    else pyFloatDigits (c :: rest) false

/-- Modelled from Python's built-in `float()` applied to a string: whitespace
stripped, optional sign, then `digits`, `digits.digits`, `digits.` or
`.digits`; anything else raises `ValueError`. (Exponents, `inf`/`nan` and
underscore separators are outside this model; no input in this development
uses them.) -/
def pyFloatCore (cs : List Char) : Py ℚ :=
  pyFloatParse (stripChars cs)

/-- `float(s)` for a Python string `s`. -/
def pyFloatOfString (s : String) : Py ℚ := pyFloatCore s.data

/-- `float(node.get(k))` where the attribute is required: `float(None)` raises
`TypeError`. -/
def pyFloatReq (a : Option String) : Py ℚ :=
  match a with
  | none => .error .typeError
  | some s => pyFloatOfString s

/-- Does the character list `l` end with `suf`? (Structural model of Python's
`str.endswith`, used on tags by `CairoSVGSurface.update`.) -/
def listEndsWith (l suf : List Char) : Bool :=
  l.drop (l.length - suf.length) == suf

/-- `s.endswith(t)` on Python strings. -/
def strEndsWith (s t : String) : Bool := listEndsWith s.data t.data

/-- An lxml element tree, as held by the surface: elements with a tag, an
attribute list and children, plus XML comments (which `c14n2` serialization
strips and whose non-string `tag` makes hit-testing skip them). -/
inductive Node where
  | elem (tag : String) (attrs : List (String × String)) (children : List Node)
  | comment (text : String)

/-- Attribute lookup, `node.get(key)`: the value of the first binding of
`key` (attribute keys are unique in an XML document). -/
def getAttr (attrs : List (String × String)) (key : String) : Option String :=
  (attrs.find? (fun a => a.1 == key)).map (fun a => a.2)

/-- `node.get(key)` on a tree node; a comment carries no attributes. -/
def Node.get : Node → String → Option String
  | .elem _ attrs _, key => getAttr attrs key
  | .comment _, _ => none

/-- The `tag` of a node as used in string comparisons. An lxml comment's
`tag` is not a string (it is a function object), so no string comparison
matches it; it is modelled by a sentinel that is not a well-formed tag. -/
def Node.tagStr : Node → String
  | .elem tag _ _ => tag
  | .comment _ => "!comment"

/-- Children of a node. -/
def Node.childList : Node → List Node
  | .elem _ _ children => children
  | .comment _ => []

/-- The SVG namespace of qualified lxml tags. -/
def nsSvg : String := "\x7bhttp://www.w3.org/2000/svg\x7d"

/-- Split a character list on a separator character; always returns at least
one (possibly empty) part, like Python's `str.split(sep)`. -/
def splitOnChar (sep : Char) : List Char → List (List Char)
  | [] => [[]]
  | c :: cs =>
    match splitOnChar sep cs with
    | [] => [[c]]
    | p :: ps => if c = sep then [] :: p :: ps else (c :: p) :: ps

/-- Leftmost match of the regular expression `pat\(([^)]+)\)` (with `pat` a
literal) in a character list, returning the captured group. Models the
`re.search` calls of `parse_transform`. -/
def scanParenGroup (pat : List Char) : List Char → Option (List Char)
  | [] =>
    if pat = [] then none else none
  | c :: cs =>
    let here : Option (List Char) :=
      if (c :: cs).take pat.length = pat then
        let afterPat := (c :: cs).drop pat.length
        let body := afterPat.takeWhile (fun d => d ≠ ')')
        if body ≠ [] ∧ afterPat.drop body.length ≠ [] then some body else none
      else none
    match here with
    | some g => some g
    | none => scanParenGroup pat cs

/-- `tuple(map(float, group.split(",")))` for a regex capture. -/
def floatTuple (group : List Char) : Py (List ℚ) :=
  (splitOnChar ',' group).mapM pyFloatCore

/-- Modelled from `parse_transform` (cairosurface.py / view.py): extracts the
`scale`, `rotation` and `translation` components of an svg `transform`
attribute. The scale defaults to `(1, 1)` and a single scale value is
duplicated; rotation and translation are returned raw (their mere presence
makes the hit-test assertions fail). -/
def parse_transform (transform : Option String) :
    Py ((ℚ × ℚ) × Option (List ℚ) × Option (List ℚ)) :=
  match transform with
  | none => .ok ((1, 1), none, none)
  | some t =>
    let scaleM := scanParenGroup "scale(".data t.data
    let rotM := scanParenGroup "rotate(".data t.data
    let traM := scanParenGroup "translate(".data t.data
    match scaleM.mapM floatTuple with
    | .error e => .error e
    | .ok scaleL =>
      match rotM.mapM floatTuple with
      | .error e => .error e
      | .ok rotL =>
        match traM.mapM floatTuple with
        | .error e => .error e
        | .ok traL =>
          let scale : ℚ × ℚ :=
            match scaleL with
            | none => (1, 1)
            | some [] => (1, 1)
            | some [s] => (s, s)
            | some (s0 :: s1 :: _) => (s0, s1)
          .ok (scale, rotL, traL)

/-- Modelled from `in_svg`: bounds check for the root `<svg>` element. The
positional attributes are optional; the point is offset and divided by the
scale component only on the axes whose positional attribute is present, and
the bound checks happen only on those axes. Rotation and translation
components are unsupported (`assert`). -/
def in_svg (node : Node) (point : ℚ × ℚ) : Py (Bool × (ℚ × ℚ)) :=
  let x := node.get "x"
  let y := node.get "y"
  let width := node.get "width"
  let height := node.get "height"
  match parse_transform (node.get "transform") with
  | .error e => .error e
  | .ok (scale, rotation, translate) =>
    if rotation ≠ none then .error .assertionError
    else if translate ≠ none then .error .assertionError
    else
      let stepX : Py (Bool × ℚ) :=
        match x with
        | none => .ok (true, point.1)
        | some sx =>
          match pyFloatOfString sx with
          | .error e => .error e
          | .ok vx =>
            match pyDiv (point.1 - vx) scale.1 with
            | .error e => .error e
            | .ok p0 =>
              match width with
              | none => .ok (decide (0 ≤ p0), p0)
              | some sw =>
                match pyFloatOfString sw with
                | .error e => .error e
                | .ok vw => .ok (decide (0 ≤ p0) && decide (p0 ≤ vw), p0)
      match stepX with
      | .error e => .error e
      | .ok (isinX, p0) =>
        let stepY : Py (Bool × ℚ) :=
          match y with
          | none => .ok (true, point.2)
          | some sy =>
            match pyFloatOfString sy with
            | .error e => .error e
            | .ok vy =>
              match pyDiv (point.2 - vy) scale.2 with
              | .error e => .error e
              | .ok p1 =>
                match height with
                | none => .ok (decide (0 ≤ p1), p1)
                | some sh =>
                  match pyFloatOfString sh with
                  | .error e => .error e
                  | .ok vh => .ok (decide (0 ≤ p1) && decide (p1 ≤ vh), p1)
        match stepY with
        | .error e => .error e
        | .ok (isinY, p1) => .ok (isinX && isinY, (p0, p1))

/-- Modelled from `in_group`: groups never carry a `transform` attribute
(`assert`), and a group contains every point. -/
def in_group (node : Node) (point : ℚ × ℚ) : Py (Bool × (ℚ × ℚ)) :=
  if node.get "transform" ≠ none then .error .assertionError
  else .ok (true, point)

/-- Modelled from `point_in_rect`: boundary-inclusive containment in an
axis-aligned rectangle; the four attributes are required (a missing one makes
`float(None)` raise `TypeError`, a malformed one raises `ValueError`, which
the source re-raises as a `ValueError` with a friendlier message). -/
def point_in_rect (node : Node) (point : ℚ × ℚ) : Py (Bool × (ℚ × ℚ)) :=
  match pyFloatReq (node.get "x") with
  | .error e => .error e
  | .ok rx =>
    match pyFloatReq (node.get "y") with
    | .error e => .error e
    | .ok ry =>
      match pyFloatReq (node.get "width") with
      | .error e => .error e
      | .ok w =>
        match pyFloatReq (node.get "height") with
        | .error e => .error e
        | .ok h =>
          .ok ((decide (rx ≤ point.1) && decide (point.1 ≤ rx + w)
             && decide (ry ≤ point.2) && decide (point.2 ≤ ry + h)), point)

/-- Modelled from `point_in_circle`: boundary-inclusive containment in a
circle, `(x-cx)² + (y-cy)² ≤ r²`. -/
def point_in_circle (node : Node) (point : ℚ × ℚ) : Py (Bool × (ℚ × ℚ)) :=
  match pyFloatReq (node.get "cx") with
  | .error e => .error e
  | .ok cx =>
    match pyFloatReq (node.get "cy") with
    | .error e => .error e
    | .ok cy =>
      match pyFloatReq (node.get "r") with
      | .error e => .error e
      | .ok r =>
        .ok (decide ((point.1 - cx) ^ 2 + (point.2 - cy) ^ 2 ≤ r ^ 2), point)

/-- The containment test `SUPPORTED_SHAPES[node.tag]`, when the tag is one of
the four supported shapes. -/
def supportedShape (tag : String) : Option (Node → ℚ × ℚ → Py (Bool × (ℚ × ℚ))) :=
  if tag = nsSvg ++ "svg" then some in_svg
  else if tag = nsSvg ++ "g" then some in_group
  else if tag = nsSvg ++ "rect" then some point_in_rect
  else if tag = nsSvg ++ "circle" then some point_in_circle
  else none

mutual
/-- Modelled from `elements_under` (cairosurface.py / view.py): depth-first
traversal collecting the ids of the elements whose bounds contain the point.
An unsupported tag returns `[]` without visiting its subtree; a matching node
contributes its `id` attribute when present and non-empty (Python truthiness:
`[node_id] if node_id else []`), then its children are visited with the
transformed point. -/
def elements_under : Node → ℚ × ℚ → Py (List String)
  | .comment _, _ => .ok []
  | .elem tag attrs children, point =>
    match supportedShape tag with
    | none => .ok []
    | some shape =>
      match shape (.elem tag attrs children) point with
      | .error e => .error e
      | .ok (isin, tpoint) =>
        if isin then
          let own : List String :=
            match getAttr attrs "id" with
            | none => []
            | some i => if i = "" then [] else [i]
          match elements_under_list children tpoint with
          | .error e => .error e
          | .ok rest => .ok (own ++ rest)
        else .ok []

/-- The loop `for child in node: result.extend(elements_under(child, tpoint))`. -/
def elements_under_list (nodes : List Node) (point : ℚ × ℚ) : Py (List String) :=
  match nodes with
  | [] => .ok []
  | n :: ns =>
    match elements_under n point with
    | .error e => .error e
    | .ok r =>
      match elements_under_list ns point with
      | .error e => .error e
      | .ok rs => .ok (r ++ rs)
end

/-! ### Canonical serialization

`CairoSVGSurface.update` stores `ET.tostring(tree, method="c14n2",
with_comments=False)`. The serializer below models the canonical aspects the
spec names: document-order traversal with attributes emitted in a fixed
sorted order and comments stripped (escaping and namespace normalization are
not modelled; no claim depends on them). -/

/-- Three-way lexicographic comparison of character lists. -/
def charListCmp : List Char → List Char → Ordering
  | [], [] => .eq
  | [], _ :: _ => .lt
  | _ :: _, [] => .gt
  | a :: as, b :: bs =>
    if a < b then .lt else if b < a then .gt else charListCmp as bs

/-- Sort key order on attributes: by attribute name, then by value. -/
def attrLeB (a b : String × String) : Bool :=
  match charListCmp a.1.data b.1.data with
  | .lt => true
  | .gt => false
  | .eq => charListCmp a.2.data b.2.data ≠ .gt

/-- The attribute order as a relation, for `List.insertionSort`. -/
def attrRel (a b : String × String) : Prop := attrLeB a b = true

instance : DecidableRel attrRel := fun a b => by
  unfold attrRel; infer_instance

/-- The canonical ordering of an attribute list. -/
def sortAttrs (attrs : List (String × String)) : List (String × String) :=
  List.insertionSort attrRel attrs

/-- One serialized attribute. -/
def renderAttr (a : String × String) : String :=
  " " ++ a.1 ++ "=\"" ++ a.2 ++ "\""

mutual
/-- Canonical serialization of a node: sorted attributes, comments stripped. -/
def c14nSerialize : Node → String
  | .comment _ => ""
  | .elem tag attrs children =>
    "<" ++ tag ++ String.join ((sortAttrs attrs).map renderAttr) ++ ">"
      ++ c14nSerializeList children ++ "</" ++ tag ++ ">"

/-- Serialization of a child list in document order. -/
def c14nSerializeList : List Node → String
  | [] => ""
  | n :: ns => c14nSerialize n ++ c14nSerializeList ns
end

/-! ### The rendering surface, `CairoSVGSurface` -/

/-- State of a `CairoSVGSurface` (cairosurface.py / view.py). `svg_size` and
`svg_position` hold Python ints (results of `int(...)` in `update`); the
remaining geometry is rational. `surface_size` is the fixed size of the
pygame render surface created in the constructor, and `window_size` is the
size of the window last rendered to. -/
structure SurfaceState where
  svg_tree : Node
  svg_source : String
  svg_position : Int × Int
  svg_size : Int × Int
  scaling_factor : ℚ
  surface_offset : ℚ × ℚ
  surface_size : ℚ × ℚ
  window_size : ℚ × ℚ

/-- The state built by `CairoSVGSurface.__init__` for a given surface size:
an empty svg document and identity-ish transform state. (The `xmlns`
namespace declaration of the parsed default document is part of the
qualified tag in lxml, not an attribute, so the attribute list is empty.) -/
def mkSurface (surface_size : ℚ × ℚ) : SurfaceState :=
  { svg_tree := .elem (nsSvg ++ "svg") [] []
    svg_source := "<svg xmlns=\"http://www.w3.org/2000/svg\"></svg>"
    svg_position := (0, 0)
    svg_size := (0, 0)
    scaling_factor := 1
    surface_offset := (0, 0)
    surface_size := surface_size
    window_size := (0, 0) }

/-- Modelled from `CairoSVGSurface.update`: asserts that the root tag ends in
`"svg"`, parses the root `width`/`height` (required) and `x`/`y` (defaulting
to `0`) with `int(...)`, and stores the canonicalized serialization. Python
mutates `self` field by field, so a failing call can leave a partially
updated object; this model returns the error and no claim inspects the
partially mutated state. -/
def SurfaceState.update (s : SurfaceState) (svg_tree : Node) : Py SurfaceState :=
  if ¬ strEndsWith svg_tree.tagStr "svg" then .error .assertionError
  else
    match pyIntReq (svg_tree.get "width") with
    | .error e => .error e
    | .ok w =>
      match pyIntReq (svg_tree.get "height") with
      | .error e => .error e
      | .ok h =>
        match pyIntDef (svg_tree.get "x") with
        | .error e => .error e
        | .ok x =>
          match pyIntDef (svg_tree.get "y") with
          | .error e => .error e
          | .ok y =>
            .ok { s with
                  svg_tree := svg_tree
                  svg_size := (w, h)
                  svg_position := (x, y)
                  svg_source := c14nSerialize svg_tree }

/-- Modelled from the `surface_position` property: the svg-declared position
scaled by the scaling factor, plus the offset centering the render surface in
the window. -/
def SurfaceState.surface_position (s : SurfaceState) : ℚ × ℚ :=
  let p := s.svg_position
  let sp : ℚ × ℚ := (p.1 * s.scaling_factor, p.2 * s.scaling_factor)
  let centering : ℚ × ℚ :=
    ((s.window_size.1 - s.surface_size.1) / 2, (s.window_size.2 - s.surface_size.2) / 2)
  (centering.1 + sp.1, centering.2 + sp.2)

/-- Modelled from `CairoSVGSurface.pixel_to_svg`: subtract `surface_offset`
and `surface_position`, divide by `scaling_factor`. -/
def SurfaceState.pixel_to_svg (s : SurfaceState) (point : ℚ × ℚ) : Py (ℚ × ℚ) :=
  let spos := s.surface_position
  match pyDiv (point.1 - s.surface_offset.1 - spos.1) s.scaling_factor with
  | .error e => .error e
  | .ok a =>
    match pyDiv (point.2 - s.surface_offset.2 - spos.2) s.scaling_factor with
    | .error e => .error e
    | .ok b => .ok (a, b)

/-- Modelled from `CairoSVGSurface.pixel_scale_to_svg_scale`: the source
multiplies both components by `scaling_factor`. -/
def SurfaceState.pixel_scale_to_svg_scale (s : SurfaceState) (point : ℚ × ℚ) : ℚ × ℚ :=
  (point.1 * s.scaling_factor, point.2 * s.scaling_factor)

/-- Modelled from `CairoSVGSurface.svg_to_pixel`: `raise NotImplementedError()`. -/
def SurfaceState.svg_to_pixel (_s : SurfaceState) (_point : ℚ × ℚ) : Py (ℚ × ℚ) :=
  .error .notImplementedError

/-- Modelled from `CairoSVGSurface.svg_scale_to_pixel_scale`:
`raise NotImplementedError()`. -/
def SurfaceState.svg_scale_to_pixel_scale (_s : SurfaceState) (_point : ℚ × ℚ) :
    Py (ℚ × ℚ) :=
  .error .notImplementedError

/-- Modelled from the transform-state part of `CairoSVGSurface._svg_to_npim`:
recomputes `scaling_factor = min(surface_w/svg_w, surface_h/svg_h)` and the
centering `surface_offset`. The cairosvg rasterization itself (the pixel
buffer contents) is outside this model. -/
def SurfaceState.svg_to_npim_transform (s : SurfaceState) : Py SurfaceState :=
  match pyDiv s.surface_size.1 (s.svg_size.1 : ℚ) with
  | .error e => .error e
  | .ok sfw =>
    match pyDiv s.surface_size.2 (s.svg_size.2 : ℚ) with
    | .error e => .error e
    | .ok sfh =>
      let sf := min sfw sfh
      .ok { s with
            scaling_factor := sf
            surface_offset :=
              ((s.surface_size.1 - (s.svg_size.1 : ℚ) * sf) / 2,
               (s.surface_size.2 - (s.svg_size.2 : ℚ) * sf) / 2) }

/-- Modelled from `CairoSVGSurface.render`: records the target window size and
re-derives the transform state via `_svg_to_npim`; the blit of the pixel
buffer and the display flip have no effect on the modelled state. -/
def SurfaceState.render (s : SurfaceState) (window_size : ℚ × ℚ) : Py SurfaceState :=
  SurfaceState.svg_to_npim_transform { s with window_size := window_size }

/-! ### The window view, `View` (view.py)

Raw pygame input samples, the typed `star_ray` events they are converted to,
the per-kind constructors, and the `get_events` drain loop. The numeric event
type codes are pygame 2.x constants; only their distinctness matters. -/

def PYGAME_QUIT : Nat := 256
def PYGAME_KEYDOWN : Nat := 768
def PYGAME_KEYUP : Nat := 769
def PYGAME_MOUSEMOTION : Nat := 1024
def PYGAME_MOUSEDOWN : Nat := 1025
def PYGAME_MOUSEUP : Nat := 1026
def PYGAME_WINDOWRESIZE : Nat := 32769
def PYGAME_USEREVENT : Nat := 32850
def PYGAME_WINDOWMOVE : Nat := PYGAME_USEREVENT + 1
def PYGAME_WINDOWFOCUS : Nat := PYGAME_USEREVENT + 2
def PYGAME_WINDOWOPEN : Nat := PYGAME_USEREVENT + 3

/-- A raw pygame input sample. Pygame events are dynamic records; the fields
a constructor reads are modelled as always-present fields with defaults. -/
structure PGEvent where
  type : Nat
  button : Nat := 0
  pos : ℚ × ℚ := (0, 0)
  rel : ℚ × ℚ := (0, 0)
  key : Nat := 0
  size : ℚ × ℚ := (0, 0)
  position : ℚ × ℚ := (0, 0)
  has_focus : Bool := false

/-- `MouseButtonEvent.BUTTON_LEFT/MIDDLE/RIGHT` of the external `star_ray`
event classes. -/
inductive MouseButton where
  | left
  | middle
  | right
deriving DecidableEq, Repr

/-- The press/release status constants of the external event classes. -/
inductive PressStatus where
  | down
  | up
deriving DecidableEq, Repr

/-- The typed `star_ray` domain events built by the constructors in view.py,
with the fields those constructors fill in. -/
inductive Event where
  | key (key : String) (keycode : Nat) (status : PressStatus)
  | mouseButton (button : MouseButton) (position : ℚ × ℚ) (status : PressStatus)
      (target : List String) (position_raw : ℚ × ℚ)
  | mouseMotion (position : ℚ × ℚ) (relative : ℚ × ℚ) (position_raw : ℚ × ℚ)
      (relative_raw : ℚ × ℚ) (target : List String)
  | windowClose
  | windowOpen
  | windowFocus (has_focus : Bool)
  | windowMove (position : ℚ × ℚ)
  | windowResize (size : ℚ × ℚ)
deriving DecidableEq, Repr

/-- `MOUSE_BUTTON_MAP`: `{1: LEFT, 2: MIDDLE, 3: RIGHT}`; a dict subscript
with any other button (for example a scroll-wheel button 4/5) raises
`KeyError`. -/
def MOUSE_BUTTON_MAP (b : Nat) : Option MouseButton :=
  if b = 1 then some .left
  else if b = 2 then some .middle
  else if b = 3 then some .right
  else none

/-- Model of the external `pygame.key.name`; no claim depends on its values. -/
def pygameKeyName (k : Nat) : String := toString k

/-- `create_key_event_from_pygame_event` (view.py). -/
def create_key_event (_s : SurfaceState) (e : PGEvent) : Py Event :=
  if e.type ≠ PYGAME_KEYDOWN ∧ e.type ≠ PYGAME_KEYUP then .error .valueError
  else
    .ok (.key (pygameKeyName e.key) e.key
      (if e.type = PYGAME_KEYDOWN then .down else .up))

/-- `create_mouse_button_event_from_pygame_event` (view.py): converts the
position to svg space, hit-tests the target list, and maps the button id
(raising `KeyError` for buttons outside the map). -/
def create_mouse_button_event (s : SurfaceState) (e : PGEvent) : Py Event :=
  if e.type ≠ PYGAME_MOUSEDOWN ∧ e.type ≠ PYGAME_MOUSEUP then .error .valueError
  else
    match s.pixel_to_svg e.pos with
    | .error err => .error err
    | .ok position =>
      match elements_under s.svg_tree position with
      | .error err => .error err
      | .ok target =>
        match MOUSE_BUTTON_MAP e.button with
        | none => .error .keyError
        | some button =>
          .ok (.mouseButton button position
            (if e.type = PYGAME_MOUSEDOWN then .down else .up) target e.pos)

/-- `create_mouse_motion_event_from_pygame_event` (view.py). -/
def create_mouse_motion_event (s : SurfaceState) (e : PGEvent) : Py Event :=
  if e.type ≠ PYGAME_MOUSEMOTION then .error .valueError
  else
    match s.pixel_to_svg e.pos with
    | .error err => .error err
    | .ok position =>
      let relative := s.pixel_scale_to_svg_scale e.rel
      match elements_under s.svg_tree position with
      | .error err => .error err
      | .ok target =>
        .ok (.mouseMotion position relative e.pos e.rel target)

/-- `create_window_close_event_from_pygame_event` (view.py). -/
def create_window_close_event (_s : SurfaceState) (e : PGEvent) : Py Event :=
  if e.type ≠ PYGAME_QUIT then .error .valueError else .ok .windowClose

/-- `create_window_open_event_from_pygame_event` (view.py). -/
def create_window_open_event (_s : SurfaceState) (e : PGEvent) : Py Event :=
  if e.type ≠ PYGAME_WINDOWOPEN then .error .valueError else .ok .windowOpen

/-- `create_window_focus_event_from_pygame_event` (view.py). -/
def create_window_focus_event (_s : SurfaceState) (e : PGEvent) : Py Event :=
  if e.type ≠ PYGAME_WINDOWFOCUS then .error .valueError
  else .ok (.windowFocus e.has_focus)

/-- `create_window_move_event_from_pygame_event` (view.py). -/
def create_window_move_event (_s : SurfaceState) (e : PGEvent) : Py Event :=
  if e.type ≠ PYGAME_WINDOWMOVE then .error .valueError
  else .ok (.windowMove e.position)

/-- `create_window_resize_event_from_pygame_event` (view.py). -/
def create_window_resize_event (_s : SurfaceState) (e : PGEvent) : Py Event :=
  if e.type ≠ PYGAME_WINDOWRESIZE then .error .valueError
  else .ok (.windowResize e.size)

/-- The `EVENT_MAP` dictionary of view.py: raw event type code to constructor;
`EVENT_MAP.get(type, None)` yields `none` for unmapped codes. -/
def EVENT_MAP (t : Nat) : Option (SurfaceState → PGEvent → Py Event) :=
  if t = PYGAME_KEYDOWN ∨ t = PYGAME_KEYUP then some create_key_event
  else if t = PYGAME_QUIT then some create_window_close_event
  else if t = PYGAME_MOUSEDOWN ∨ t = PYGAME_MOUSEUP then some create_mouse_button_event
  else if t = PYGAME_MOUSEMOTION then some create_mouse_motion_event
  else if t = PYGAME_WINDOWRESIZE then some create_window_resize_event
  else if t = PYGAME_WINDOWMOVE then some create_window_move_event
  else if t = PYGAME_WINDOWFOCUS then some create_window_focus_event
  else none

/-- One iteration of the `View.get_events` loop: an unmapped raw sample is
skipped, a successful construction is appended to the event list, and a
failing construction is caught and appended to the log. -/
def get_events_step (s : SurfaceState) (acc : List Event × List PGEvent)
    (e : PGEvent) : List Event × List PGEvent :=
  match EVENT_MAP e.type with
  | none => acc
  | some f =>
    match f s e with
    | .ok ev => (acc.1 ++ [ev], acc.2)
    | .error _ => (acc.1, acc.2 ++ [e])

/-- Modelled from `View.get_events`: drains the given queue once; for each
raw sample with a mapped constructor the constructed event is appended, and a
constructor failure is caught and logged (the first component is the returned
event list, the second the list of logged failing samples). -/
def get_events (s : SurfaceState) (queue : List PGEvent) : List Event × List PGEvent :=
  queue.foldl (get_events_step s) ([], [])

/-- The successfully constructed event for a raw sample, if any. -/
def constructResult (s : SurfaceState) (e : PGEvent) : Option Event :=
  match EVENT_MAP e.type with
  | none => none
  | some f =>
    match f s e with
    | .ok ev => some ev
    | .error _ => none

/-- Whether the constructor for a raw sample raises (and is hence logged). -/
def constructFails (s : SurfaceState) (e : PGEvent) : Bool :=
  match EVENT_MAP e.type with
  | none => false
  | some f =>
    match f s e with
    | .ok _ => false
    | .error _ => true

/-- The window configuration value object consumed from `star_ray.ui`. -/
structure WindowConfiguration where
  width : ℚ
  height : ℚ
  title : String
  resizable : Bool
  fullscreen : Bool

/-- The view state touched by the `window_size` setter: the stored
configuration, the OS window size last passed to `pygame.display.set_mode`,
a generation counter for the pywinctl watcher (`_setup_pwc_window` tears the
old watcher down and attaches a new one, incrementing the generation), and
the queue of synthetic pygame events posted by the callbacks. -/
structure ViewState where
  window_config : WindowConfiguration
  window : ℚ × ℚ
  pwc_generation : Nat
  posted : List PGEvent

/-- Modelled from the `View.window_size` setter: when the requested value
differs from the stored configuration size, the OS window is recreated at the
ceiling-rounded size, the watcher is re-attached, the configuration is
updated and a synthetic resize event is posted; otherwise nothing happens. -/
def ViewState.set_window_size (v : ViewState) (value : ℚ × ℚ) : ViewState :=
  if (v.window_config.width, v.window_config.height) ≠ value then
    let width : Int := ⌈value.1⌉
    let height : Int := ⌈value.2⌉
    { v with
      window := ((width : ℚ), (height : ℚ))
      pwc_generation := v.pwc_generation + 1
      window_config := { v.window_config with width := (width : ℚ), height := (height : ℚ) }
      posted := v.posted ++
        [{ type := PYGAME_WINDOWRESIZE, size := ((width : ℚ), (height : ℚ)) }] }
  else v

/-! ### Specification-side traversal (for the `elements_under` order claim)

A two-phase rendering of the spec's words for `elements_under`: first list
every matched element in depth-first, root-to-leaf order (keeping one entry
per matched element, `none` when it lacks a usable id), then drop the
id-less entries. Matching the code's Python truthiness, an empty-string id
counts as lacking an id. -/

mutual
/-- All matched elements in preorder, as optional ids. -/
def matchedPreorder : Node → ℚ × ℚ → Py (List (Option String))
  | .comment _, _ => .ok []
  | .elem tag attrs children, point =>
    match supportedShape tag with
    | none => .ok []
    | some shape =>
      match shape (.elem tag attrs children) point with
      | .error e => .error e
      | .ok (isin, tpoint) =>
        if isin then
          let own : Option String :=
            match getAttr attrs "id" with
            | none => none
            | some i => if i = "" then none else some i
          match matchedPreorderList children tpoint with
          | .error e => .error e
          | .ok rest => .ok (own :: rest)
        else .ok []

/-- Preorder matches of a child list. -/
def matchedPreorderList : List Node → ℚ × ℚ → Py (List (Option String))
  | [], _ => .ok []
  | n :: ns, point =>
    match matchedPreorder n point with
    | .error e => .error e
    | .ok r =>
      match matchedPreorderList ns point with
      | .error e => .error e
      | .ok rs => .ok (r ++ rs)
end

/-- A numeric but non-integer decimal string, such as `"100.5"`: a non-empty
digit string, a decimal point, and a non-empty fraction part containing a
nonzero digit. -/
def NonIntegerDecimal (s : String) : Prop :=
  ∃ a b : String, s = a ++ "." ++ b ∧
    a.data.all Char.isDigit = true ∧ b.data.all Char.isDigit = true ∧
    a ≠ "" ∧ b ≠ "" ∧ b.data.any (fun c => c ≠ '0') = true

/-- A rect at `(0, 0)` of size `100×100` with id `"r1"`. -/
def c3RectNode : Node :=
  .elem (nsSvg ++ "rect")
    [("id", "r1"), ("x", "0"), ("y", "0"), ("width", "100"), ("height", "100")] []

/-- The document of the rect hit-testing claim: a 200×200 root containing a
rect at `(0, 0)` of size `100×100` with id `"r1"`. -/
def c3Doc : Node :=
  .elem (nsSvg ++ "svg") [("width", "200"), ("height", "200")] [c3RectNode]

/-- A group without id containing the rect `"r1"`. -/
def c4GroupDoc : Node :=
  .elem (nsSvg ++ "g") [] [c3RectNode]

/-- A well-formed raw key-down sample. -/
def c5KeyEvent : PGEvent := { type := PYGAME_KEYDOWN, key := 13 }

/-- A raw mouse-down sample with scroll-wheel button 4: its constructor
raises `KeyError` in `MOUSE_BUTTON_MAP`. -/
def c5BadMouseEvent : PGEvent := { type := PYGAME_MOUSEDOWN, button := 4, pos := (10, 10) }

/-- A well-formed raw quit sample. -/
def c5QuitEvent : PGEvent := { type := PYGAME_QUIT }

/-- A batch of three raw samples whose middle sample is malformed. -/
def c5Queue : List PGEvent := [c5KeyEvent, c5BadMouseEvent, c5QuitEvent]

/-- A document with a single circle of radius 5 at the origin, id `"c1"`. -/
def c3CircleDoc : Node :=
  .elem (nsSvg ++ "svg") [("width", "200"), ("height", "200")]
    [.elem (nsSvg ++ "circle") [("id", "c1"), ("cx", "0"), ("cy", "0"), ("r", "5")] []]

/-- A surface state as reached after rendering a 100×100 document to a
200×200 buffer: `scaling_factor = 2`. -/
def c1DemoState : SurfaceState :=
  { mkSurface (200, 200) with svg_size := (100, 100), scaling_factor := 2 }

/-- A concrete view state for the C8 witness. -/
def c8DemoView : ViewState :=
  { window_config :=
      { width := 640, height := 480, title := "demo", resizable := false, fullscreen := false }
    window := (640, 480)
    pwc_generation := 0
    posted := [] }

/-! ### Claims -/

/-- A character on which a predicate is false survives `dropWhile`. -/
theorem mem_dropWhile_of_neg {p : Char → Bool} {c : Char} (hc : p c = false) :
    ∀ {l : List Char}, c ∈ l → c ∈ l.dropWhile p := by
  intro l hl
  induction l with
  | nil => cases hl
  | cons a as ih =>
    by_cases ha : p a = true
    · rw [List.dropWhile_cons_of_pos ha]
      rcases List.mem_cons.mp hl with h | h
      · subst h; rw [hc] at ha; cases ha
      · exact ih h
    · rw [List.dropWhile_cons_of_neg ha]
      exact hl

/-- A non-whitespace character survives the whitespace stripping of the
Python numeric constructors. -/
theorem mem_stripChars {c : Char} (hc : isPySpace c = false) {l : List Char}
    (h : c ∈ l) : c ∈ stripChars l := by
  unfold stripChars
  rw [List.mem_reverse]
  exact mem_dropWhile_of_neg hc (by rw [List.mem_reverse]; exact mem_dropWhile_of_neg hc h)

/-- The digit-run check of `int()` rejects any body containing a decimal
point. -/
theorem pyIntDigits_error_of_dot {body : List Char} (h : '.' ∈ body) (neg : Bool) :
    pyIntDigits body neg = .error .valueError := by
  unfold pyIntDigits
  rw [if_neg]
  intro hcontra
  exact absurd (List.all_eq_true.mp hcontra.2 '.' h) (by decide)

/-- `int()` rejects any string containing a decimal point. -/
theorem pyIntCore_error_of_dot {cs : List Char} (h : '.' ∈ cs) :
    pyIntCore cs = .error .valueError := by
  have hmem : '.' ∈ stripChars cs := mem_stripChars (by decide) h
  unfold pyIntCore
  rcases hs : stripChars cs with _ | ⟨c, rest⟩
  · rw [hs] at hmem; cases hmem
  · rw [hs] at hmem
    by_cases hcdash : c = '-'
    · subst hcdash
      have hin : '.' ∈ rest := by
        rcases List.mem_cons.mp hmem with h | h
        · cases h
        · exact h
      simp only [pyIntParse, if_pos rfl]
      exact pyIntDigits_error_of_dot hin true
    · by_cases hcplus : c = '+'
      · subst hcplus
        have hin : '.' ∈ rest := by
          rcases List.mem_cons.mp hmem with h | h
          · cases h
          · exact h
        simp only [pyIntParse, if_neg hcdash, if_pos rfl]
        exact pyIntDigits_error_of_dot hin false
      · simp only [pyIntParse, if_neg hcdash, if_neg hcplus]
        exact pyIntDigits_error_of_dot hmem false

/-- A non-integer decimal string contains a decimal point. -/
theorem nonIntegerDecimal_dot {s : String} (h : NonIntegerDecimal s) : '.' ∈ s.data := by
  obtain ⟨a, b, hs, -⟩ := h
  subst hs
  simp [String.data_append]

/-- C9: updating with a document whose root `width`, `height`, `x` or `y`
attribute is a numeric but non-integer decimal string (for example
`"100.5"`) raises: the root geometry goes through `int(...)`, which rejects
fractional strings even though all other geometry is parsed as float. -/
theorem claim_C9_fractional_root_geometry_rejected (s : SurfaceState) (tag : String)
    (attrs : List (String × String)) (children : List Node)
    (htag : strEndsWith tag "svg" = true)
    (h : ∃ k, k ∈ (["width", "height", "x", "y"] : List String) ∧
      ∃ v, getAttr attrs k = some v ∧ NonIntegerDecimal v) :
    ∃ e, SurfaceState.update s (.elem tag attrs children) = .error e := by
  obtain ⟨k, hk, v, hkv, hnd⟩ := h
  have hvfail : pyIntOfString v = .error .valueError :=
    pyIntCore_error_of_dot (nonIntegerDecimal_dot hnd)
  have hreq : pyIntReq (some v) = .error .valueError := by
    simpa [pyIntReq] using hvfail
  have hdef : pyIntDef (some v) = .error .valueError := by
    simpa [pyIntDef] using hvfail
  unfold SurfaceState.update
  simp only [Node.tagStr, htag, not_true, if_neg, Bool.true_eq_false, ite_false,
    not_false_iff, if_false]
  rcases hw : pyIntReq (Node.get (.elem tag attrs children) "width") with e | wv
  · exact ⟨e, rfl⟩
  rcases hh : pyIntReq (Node.get (.elem tag attrs children) "height") with e | hv
  · exact ⟨e, rfl⟩
  rcases hx : pyIntDef (Node.get (.elem tag attrs children) "x") with e | xv
  · exact ⟨e, rfl⟩
  rcases hy : pyIntDef (Node.get (.elem tag attrs children) "y") with e | yv
  · exact ⟨e, rfl⟩
  exfalso
  have hget : Node.get (.elem tag attrs children) k = some v := hkv
  simp only [List.mem_cons, List.mem_singleton, List.not_mem_nil, or_false] at hk
  rcases hk with hk | hk | hk | hk <;> subst hk
  · rw [hget] at hw; rw [hreq] at hw; cases hw
  · rw [hget] at hh; rw [hreq] at hh; cases hh
  · rw [hget] at hx; rw [hdef] at hx; cases hx
  · rw [hget] at hy; rw [hdef] at hy; cases hy

/-- `charListCmp` returns `.eq` exactly on equal lists. -/
theorem charListCmp_eq_iff : ∀ {l₁ l₂ : List Char}, charListCmp l₁ l₂ = .eq ↔ l₁ = l₂ := by
  intro l₁
  induction l₁ with
  | nil => intro l₂; cases l₂ <;> simp [charListCmp]
  | cons a as ih =>
    intro l₂
    cases l₂ with
    | nil => simp [charListCmp]
    | cons b bs =>
      by_cases hab : a < b
      · simp [charListCmp, hab, hab.ne]
      · by_cases hba : b < a
        · simp [charListCmp, hab, hba, hba.ne']
        · obtain rfl : a = b := le_antisymm (not_lt.mp hba) (not_lt.mp hab)
          simp [charListCmp, lt_self_iff_false, ih]

/-- `charListCmp` answers `.gt` exactly when the reversed comparison answers
`.lt`. -/
theorem charListCmp_gt_iff : ∀ {l₁ l₂ : List Char},
    charListCmp l₁ l₂ = .gt ↔ charListCmp l₂ l₁ = .lt := by
  intro l₁
  induction l₁ with
  | nil => intro l₂; cases l₂ <;> simp [charListCmp]
  | cons a as ih =>
    intro l₂
    cases l₂ with
    | nil => simp [charListCmp]
    | cons b bs =>
      by_cases hab : a < b
      · simp [charListCmp, hab, asymm hab]
      · by_cases hba : b < a
        · simp [charListCmp, hab, hba]
        · obtain rfl : a = b := le_antisymm (not_lt.mp hba) (not_lt.mp hab)
          simp [charListCmp, lt_self_iff_false, ih]

/-- Strict lexicographic order on character lists is transitive. -/
theorem charListCmp_lt_trans : ∀ {l₁ l₂ l₃ : List Char},
    charListCmp l₁ l₂ = .lt → charListCmp l₂ l₃ = .lt → charListCmp l₁ l₃ = .lt := by
  intro l₁
  induction l₁ with
  | nil =>
    intro l₂ l₃ h12 h23
    cases l₂ with
    | nil => simp [charListCmp] at h12
    | cons b bs =>
      cases l₃ with
      | nil => simp [charListCmp] at h23
      | cons c cs => simp [charListCmp]
  | cons a as ih =>
    intro l₂ l₃ h12 h23
    cases l₂ with
    | nil => simp [charListCmp] at h12
    | cons b bs =>
      cases l₃ with
      | nil => simp [charListCmp] at h23
      | cons c cs =>
        by_cases hab : a < b
        · by_cases hbc : b < c
          · simp [charListCmp, lt_trans hab hbc]
          · by_cases hcb : c < b
            · simp [charListCmp, hbc, hcb] at h23
            · obtain rfl : b = c := le_antisymm (not_lt.mp hcb) (not_lt.mp hbc)
              simp [charListCmp, hab]
        · by_cases hba : b < a
          · simp [charListCmp, hab, hba] at h12
          · obtain rfl : a = b := le_antisymm (not_lt.mp hba) (not_lt.mp hab)
            simp only [charListCmp, lt_self_iff_false, if_false] at h12
            by_cases hac : a < c
            · simp [charListCmp, hac]
            · by_cases hca : c < a
              · simp [charListCmp, hac, hca] at h23
              · obtain rfl : a = c := le_antisymm (not_lt.mp hca) (not_lt.mp hac)
                simp only [charListCmp, lt_self_iff_false, if_false] at h23 ⊢
                exact ih h12 h23

/-- The attribute order is total. -/
theorem attrLeB_total (a b : String × String) : attrLeB a b = true ∨ attrLeB b a = true := by
  unfold attrLeB
  rcases hk : charListCmp a.1.data b.1.data with _ | _ | _
  · left; rfl
  · have hk' : charListCmp b.1.data a.1.data = .eq := by
      rw [charListCmp_eq_iff] at hk ⊢; exact hk.symm
    rcases hv : charListCmp a.2.data b.2.data with _ | _ | _
    · left; simp [hv]
    · left; simp [hv]
    · right
      have hv' : charListCmp b.2.data a.2.data = .lt := charListCmp_gt_iff.mp hv
      simp [hk', hv']
  · right
    have hk' : charListCmp b.1.data a.1.data = .lt := charListCmp_gt_iff.mp hk
    simp [hk']

/-- The attribute order is transitive. -/
theorem attrLeB_trans {a b c : String × String}
    (hab : attrLeB a b = true) (hbc : attrLeB b c = true) : attrLeB a c = true := by
  unfold attrLeB at hab hbc ⊢
  rcases hk1 : charListCmp a.1.data b.1.data with _ | _ | _ <;> rw [hk1] at hab
  case gt => cases hab
  all_goals rcases hk2 : charListCmp b.1.data c.1.data with _ | _ | _ <;> rw [hk2] at hbc
  case lt.gt => cases hbc
  case eq.gt => cases hbc
  · -- lt, lt
    rw [charListCmp_lt_trans hk1 hk2]
  · -- lt, eq: keys b = c
    have : b.1.data = c.1.data := charListCmp_eq_iff.mp hk2
    rw [← this, hk1]
  · -- eq, lt: keys a = b
    have : a.1.data = b.1.data := charListCmp_eq_iff.mp hk1
    rw [this, hk2]
  · -- eq, eq: keys all equal, values compose
    have h1 : a.1.data = b.1.data := charListCmp_eq_iff.mp hk1
    have h2 : b.1.data = c.1.data := charListCmp_eq_iff.mp hk2
    rw [h1, h2, charListCmp_eq_iff.mpr rfl]
    simp only [decide_eq_true_eq] at hab hbc ⊢
    intro hac
    rcases hv1 : charListCmp a.2.data b.2.data with _ | _ | _
    · rcases hv2 : charListCmp b.2.data c.2.data with _ | _ | _
      · exact absurd (charListCmp_lt_trans hv1 hv2) (by rw [hac]; simp)
      · have : b.2.data = c.2.data := charListCmp_eq_iff.mp hv2
        rw [this] at hv1
        exact absurd hv1 (by rw [hac]; simp)
      · exact absurd hv2 hbc
    · have : a.2.data = b.2.data := charListCmp_eq_iff.mp hv1
      rw [this] at hac
      exact absurd hac hbc
    · exact absurd hv1 hab

/-- The attribute order is antisymmetric. -/
theorem attrLeB_antisymm {a b : String × String}
    (hab : attrLeB a b = true) (hba : attrLeB b a = true) : a = b := by
  unfold attrLeB at hab hba
  rcases hk : charListCmp a.1.data b.1.data with _ | _ | _ <;> rw [hk] at hab
  · have : charListCmp b.1.data a.1.data = .gt := charListCmp_gt_iff.mpr hk
    rw [this] at hba
    cases hba
  · have hkeys : a.1 = b.1 := String.ext (charListCmp_eq_iff.mp hk)
    have hk' : charListCmp b.1.data a.1.data = .eq := by
      rw [charListCmp_eq_iff]
      exact congrArg String.data hkeys.symm
    rw [hk'] at hba
    simp only [decide_eq_true_eq] at hab hba
    have hvals : a.2 = b.2 := by
      rcases hv : charListCmp a.2.data b.2.data with _ | _ | _
      · exact absurd (charListCmp_gt_iff.mpr hv) hba
      · exact String.ext (charListCmp_eq_iff.mp hv)
      · exact absurd hv hab
    cases a; cases b
    simp_all
  · cases hab

/-- The canonical attribute sort depends only on the multiset of attributes:
permuting the input list yields the same sorted list. -/
theorem sortAttrs_congr_perm {attrs attrs' : List (String × String)}
    (h : List.Perm attrs attrs') : sortAttrs attrs = sortAttrs attrs' := by
  haveI : IsTotal (String × String) attrRel := ⟨fun a b => attrLeB_total a b⟩
  haveI : IsTrans (String × String) attrRel := ⟨fun _ _ _ => attrLeB_trans⟩
  haveI : IsAntisymm (String × String) attrRel := ⟨fun _ _ => attrLeB_antisymm⟩
  exact List.eq_of_perm_of_sorted
    ((List.perm_insertionSort attrRel attrs).trans
      (h.trans (List.perm_insertionSort attrRel attrs').symm))
    (List.sorted_insertionSort attrRel attrs)
    (List.sorted_insertionSort attrRel attrs')

/-- The empty string is a left identity of string append. -/
theorem str_empty_append (s : String) : "" ++ s = s :=
  String.ext (by simp [String.data_append])

/-- Stripping a comment from a child list does not change the serialization. -/
theorem c14nSerializeList_drop_comment (txt : String) :
    ∀ (pre post : List Node),
      c14nSerializeList (pre ++ .comment txt :: post) = c14nSerializeList (pre ++ post) := by
  intro pre post
  induction pre with
  | nil =>
    show c14nSerializeList (.comment txt :: post) = c14nSerializeList post
    rw [c14nSerializeList]
    show c14nSerialize (.comment txt) ++ c14nSerializeList post = _
    rw [c14nSerialize]
    exact str_empty_append _
  | cons n ns ih =>
    show c14nSerializeList (n :: (ns ++ .comment txt :: post)) = _
    rw [c14nSerializeList, ih]
    rfl

/-- C6 (amended): `update` fails — with `AssertionError` — whenever the root
tag does not end in `"svg"` (in particular for a comment root, whose tag is
not a string), fails — with `TypeError`/`ValueError` — when the root lacks an
int-parseable `width`/`height` (`TypeError` shown here for a missing
`width`), and on success replaces the stored document wholesale and stores
its canonicalized serialization, which is invariant under attribute
reordering and comment removal. The claim's `ValidationError` does not exist
in the source, and the tag check is only `str.endswith("svg")`, so a
non-SVG root element whose tag merely ends in `"svg"` is accepted (see the
counterexample). -/
theorem claim_C6_update_validation_and_canonical_serialization :
    (∀ (s : SurfaceState) (t : Node), strEndsWith t.tagStr "svg" = false →
        s.update t = .error .assertionError) ∧
    (∀ (s : SurfaceState) (t : Node), strEndsWith t.tagStr "svg" = true →
        t.get "width" = none → s.update t = .error .typeError) ∧
    (∀ (s : SurfaceState) (t : Node) (s' : SurfaceState), s.update t = .ok s' →
        s'.svg_tree = t ∧ s'.svg_source = c14nSerialize t) ∧
    (∀ (tag : String) (attrs attrs' : List (String × String)) (children : List Node),
        List.Perm attrs attrs' →
          c14nSerialize (.elem tag attrs children) = c14nSerialize (.elem tag attrs' children)) ∧
    (∀ (tag : String) (attrs : List (String × String)) (pre : List Node) (txt : String)
        (post : List Node),
        c14nSerialize (.elem tag attrs (pre ++ .comment txt :: post)) =
          c14nSerialize (.elem tag attrs (pre ++ post))) := by
  refine ⟨?_, ?_, ?_, ?_, ?_⟩
  · intro s t htag
    unfold SurfaceState.update
    rw [if_pos]
    simp [htag]
  · intro s t htag hw
    unfold SurfaceState.update
    rw [if_neg (by simp [htag])]
    rw [hw]
    rfl
  · intro s t s' h
    unfold SurfaceState.update at h
    split at h
    · cases h
    · rcases hw : pyIntReq (t.get "width") with e | wv <;> rw [hw] at h
      · cases h
      rcases hh : pyIntReq (t.get "height") with e | hv <;> rw [hh] at h
      · cases h
      rcases hx : pyIntDef (t.get "x") with e | xv <;> rw [hx] at h
      · cases h
      rcases hy : pyIntDef (t.get "y") with e | yv <;> rw [hy] at h
      · cases h
      cases h
      exact ⟨rfl, rfl⟩
  · intro tag attrs attrs' children h
    show _ = _
    rw [c14nSerialize, c14nSerialize, sortAttrs_congr_perm h]
  · intro tag attrs pre txt post
    rw [c14nSerialize, c14nSerialize, c14nSerializeList_drop_comment]

/-- C6 counterexample to the claim as stated: a root element that is not an
SVG element — its qualified tag is `{svg-namespace}xsvg`, a different tag
from `{svg-namespace}svg` — but has numeric width/height is accepted by
`update` instead of failing, because the code only checks
`tag.endswith("svg")`. -/
theorem claim_C6_counterexample :
    (SurfaceState.update (mkSurface (1, 1))
        (.elem (nsSvg ++ "xsvg") [("width", "10"), ("height", "10")] [])).isOk = true ∧
      nsSvg ++ "xsvg" ≠ nsSvg ++ "svg" := by
  constructor
  · decide
  · decide

/-- Witness for C6 at concrete inputs: a non-"svg" root tag is rejected with
`AssertionError`, and the canonical serialization agrees on two attribute
orders of the same element. -/
theorem claim_C6_update_validation_and_canonical_serialization_witness :
    SurfaceState.update (mkSurface (1, 1)) (.elem "oops" [] []) = .error .assertionError ∧
      c14nSerialize (.elem "a" [("x", "1"), ("b", "2")] []) =
        c14nSerialize (.elem "a" [("b", "2"), ("x", "1")] []) :=
  ⟨claim_C6_update_validation_and_canonical_serialization.1 (mkSurface (1, 1))
      (.elem "oops" [] []) (by decide),
    claim_C6_update_validation_and_canonical_serialization.2.2.2.1 "a"
      [("x", "1"), ("b", "2")] [("b", "2"), ("x", "1")] [] (List.Perm.swap _ _ _)⟩

/-- C10: in `in_svg`, the scale component of the `transform` attribute is
applied to a point coordinate only when the corresponding positional
attribute is present. First conjunct: an svg node with a parsed scale
transform but no `x`/`y` attributes leaves the point unchanged and reports
containment `true` regardless of the scale. Second conjunct: with an `x`
attribute present (and no `width`/`y`), the x coordinate is offset by `x`
and divided by `scale[0]`, and the x bound check is applied. -/
theorem claim_C10_scale_only_with_positional_attrs :
    (∀ (tag : String) (attrs : List (String × String)) (children : List Node)
        (p : ℚ × ℚ) (scale : ℚ × ℚ),
        getAttr attrs "x" = none → getAttr attrs "y" = none →
        parse_transform (getAttr attrs "transform") = .ok (scale, none, none) →
        in_svg (.elem tag attrs children) p = .ok (true, p)) ∧
    (∀ (tag : String) (attrs : List (String × String)) (children : List Node)
        (p : ℚ × ℚ) (scale : ℚ × ℚ) (sx : String) (vx : ℚ),
        getAttr attrs "x" = some sx → pyFloatOfString sx = .ok vx →
        getAttr attrs "width" = none → getAttr attrs "y" = none →
        parse_transform (getAttr attrs "transform") = .ok (scale, none, none) →
        scale.1 ≠ 0 →
        in_svg (.elem tag attrs children) p =
          .ok (decide (0 ≤ (p.1 - vx) / scale.1), ((p.1 - vx) / scale.1, p.2))) := by
  constructor
  · intro tag attrs children p scale hx hy ht
    unfold in_svg
    simp only [Node.get, hx, hy, ht]
    simp
  · intro tag attrs children p scale sx vx hx hvx hw hy ht hs
    unfold in_svg
    simp only [Node.get, hx, hvx, hw, hy, ht]
    simp [pyDiv, hs]

/-- Witness for C10 at concrete inputs: a node with `transform="scale(2)"`
and no positional attributes contains `(3, 4)` unchanged, and a node with
`x="10"` and `transform="scale(2)"` maps the x coordinate of `(16, 4)` to
`(16 - 10) / 2 = 3`. -/
theorem claim_C10_scale_only_with_positional_attrs_witness :
    in_svg (.elem (nsSvg ++ "svg") [("transform", "scale(2)")] []) (3, 4) =
      .ok (true, (3, 4)) ∧
    in_svg (.elem (nsSvg ++ "svg") [("x", "10"), ("transform", "scale(2)")] []) (16, 4) =
      .ok (decide (0 ≤ ((16 : ℚ) - 10) / 2), (((16 : ℚ) - 10) / 2, (4 : ℚ))) :=
  ⟨claim_C10_scale_only_with_positional_attrs.1 (nsSvg ++ "svg")
      [("transform", "scale(2)")] [] (3, 4) (2, 2) (by decide) (by decide) (by decide),
    claim_C10_scale_only_with_positional_attrs.2 (nsSvg ++ "svg")
      [("x", "10"), ("transform", "scale(2)")] [] (16, 4) (2, 2) "10" 10
      (by decide) (by decide) (by decide) (by decide) (by decide) (by norm_num)⟩

/-- C3: on the document with a rect at `(0, 0, 100, 100)` with id `"r1"`,
`elements_under` answers `["r1"]` at `(50, 50)`, `[]` at `(150, 150)` and
`["r1"]` at the boundary corner `(100, 100)` — rect containment is
boundary-inclusive. Circle containment is boundary-inclusive too: the point
`(3, 4)` at exact distance `r = 5` from the center is inside, while `(3, 5)`
just outside is not. -/
theorem claim_C3_hit_test_with_inclusive_boundaries :
    elements_under c3Doc (50, 50) = .ok ["r1"] ∧
    elements_under c3Doc (150, 150) = .ok [] ∧
    elements_under c3Doc (100, 100) = .ok ["r1"] ∧
    elements_under c3CircleDoc (3, 4) = .ok ["c1"] ∧
    elements_under c3CircleDoc (3, 5) = .ok [] := by
  refine ⟨?_, ?_, ?_, ?_, ?_⟩ <;>
    · simp [c3Doc, c3RectNode, c3CircleDoc, elements_under, elements_under_list, supportedShape,
        nsSvg, in_svg, in_group, point_in_rect, point_in_circle, parse_transform,
        Node.get, getAttr, pyFloatReq, pyFloatOfString, pyFloatCore, pyFloatParse,
        pyFloatDigits, stripChars, digitsVal, pyDiv, List.find?, Option.map,
        Option.mapM, scanParenGroup, floatTuple, splitOnChar, List.takeWhile,
        List.dropWhile, List.foldl, isPySpace, Char.isDigit]
      try norm_num

mutual
/-- `elements_under` refines the spec-side traversal: it returns exactly the
ids of the preorder-matched elements, with id-less entries dropped. -/
theorem elements_under_eq_spec : ∀ (n : Node) (p : ℚ × ℚ),
    elements_under n p = (matchedPreorder n p).map (fun l => l.filterMap id)
  | .comment _, _ => by
    rw [elements_under, matchedPreorder]
    rfl
  | .elem tag attrs children, p => by
    rw [elements_under, matchedPreorder]
    cases hs : supportedShape tag with
    | none => rfl
    | some shape =>
      dsimp only
      cases hres : shape (.elem tag attrs children) p with
      | error e => rfl
      | ok r =>
        obtain ⟨isin, tp⟩ := r
        cases isin with
        | false => rfl
        | true =>
          dsimp only
          have ih := elements_under_list_eq_spec children tp
          rw [ih]
          cases hm : matchedPreorderList children tp with
          | error e => rfl
          | ok rest =>
            dsimp only [Except.map]
            cases hid : getAttr attrs "id" with
            | none => simp [List.filterMap_cons]
            | some i =>
              by_cases hie : i = "" <;>
                simp [hie, List.filterMap_cons]

/-- List version of `elements_under_eq_spec`. -/
theorem elements_under_list_eq_spec : ∀ (ns : List Node) (p : ℚ × ℚ),
    elements_under_list ns p = (matchedPreorderList ns p).map (fun l => l.filterMap id)
  | [], _ => by
    rw [elements_under_list, matchedPreorderList]
    rfl
  | n :: ns, p => by
    rw [elements_under_list, matchedPreorderList]
    rw [elements_under_eq_spec n p, elements_under_list_eq_spec ns p]
    cases matchedPreorder n p with
    | error e => rfl
    | ok r =>
      cases matchedPreorderList ns p with
      | error e => rfl
      | ok rs => simp [Except.map, List.filterMap_append]
end

/-- C4: the traversal contract of `elements_under`. First conjunct: it
refines the spec-side two-phase traversal — the preorder (root-to-leaf)
list of matched elements with id-less entries dropped — so every matching
ancestor's id precedes its matching descendants' ids. Second conjunct: an
unsupported tag contributes no matches and its subtree is not visited (the
result is `.ok []` for every child list, including children whose own
containment tests would raise). Third conjunct: a matching node with an id
puts that id at the head of its result, before everything contributed by
descendants. Fourth conjunct: a matching node without an id contributes no
entry, but its children are still visited. -/
theorem claim_C4_traversal_order_and_pruning :
    (∀ (n : Node) (p : ℚ × ℚ),
        elements_under n p = (matchedPreorder n p).map (fun l => l.filterMap id)) ∧
    (∀ (tag : String) (attrs : List (String × String)) (children : List Node) (p : ℚ × ℚ),
        supportedShape tag = none →
          elements_under (.elem tag attrs children) p = .ok []) ∧
    (∀ (n : Node) (p : ℚ × ℚ) (l : List String) (i : String),
        elements_under n p = .ok l → n.get "id" = some i → i ≠ "" → l ≠ [] →
          l.head? = some i) ∧
    (∀ (tag : String) (attrs : List (String × String)) (children : List Node) (p : ℚ × ℚ)
        (shape : Node → ℚ × ℚ → Py (Bool × (ℚ × ℚ))) (tp : ℚ × ℚ),
        supportedShape tag = some shape →
        shape (.elem tag attrs children) p = .ok (true, tp) →
        getAttr attrs "id" = none →
          elements_under (.elem tag attrs children) p = elements_under_list children tp) := by
  refine ⟨elements_under_eq_spec, ?_, ?_, ?_⟩
  · intro tag attrs children p hs
    rw [elements_under, hs]
  · intro n p l i h hid hie hne
    cases n with
    | comment txt => cases hid
    | elem tag attrs children =>
      rw [elements_under] at h
      rcases hs : supportedShape tag with _ | shape <;> rw [hs] at h
      · cases h; exact absurd rfl hne
      dsimp only at h
      rcases hres : shape (.elem tag attrs children) p with e | ⟨isin, tp⟩ <;>
        rw [hres] at h
      · cases h
      cases isin with
      | false => cases h; exact absurd rfl hne
      | true =>
        dsimp only at h
        rcases hrest : elements_under_list children tp with e | rest <;> rw [hrest] at h
        · cases h
        have hid' : getAttr attrs "id" = some i := hid
        rw [hid'] at h
        simp [hie] at h
        subst h
        rfl
  · intro tag attrs children p shape tp hs hres hid
    rw [elements_under, hs]
    dsimp only
    rw [hres]
    dsimp only
    rw [hid]
    cases helist : elements_under_list children tp with
    | error e => rfl
    | ok rest => simp

/-- The rect `"r1"` alone contains `(50, 50)`. -/
theorem c3RectNode_eval : elements_under c3RectNode (50, 50) = .ok ["r1"] := by
  simp [c3RectNode, elements_under, elements_under_list, supportedShape,
    nsSvg, in_svg, in_group, point_in_rect, point_in_circle, parse_transform,
    Node.get, getAttr, pyFloatReq, pyFloatOfString, pyFloatCore, pyFloatParse,
    pyFloatDigits, stripChars, digitsVal, pyDiv, List.find?, Option.map,
    Option.mapM, scanParenGroup, floatTuple, splitOnChar, List.takeWhile,
    List.dropWhile, List.foldl, isPySpace, Char.isDigit]
  norm_num

/-- Witness for C4 at concrete inputs: an unsupported tag prunes its whole
subtree even when the child rect would match; the rect `"r1"` reports its id
at the head of its result; and the id-less group is transparent — its result
is exactly its children's traversal. -/
theorem claim_C4_traversal_order_and_pruning_witness :
    elements_under c3Doc (50, 50) =
      (matchedPreorder c3Doc (50, 50)).map (fun l => l.filterMap id) ∧
    elements_under (.elem "unsupported" [] [c3RectNode]) (50, 50) = .ok [] ∧
    (["r1"] : List String).head? = some "r1" ∧
    elements_under c4GroupDoc (50, 50) = elements_under_list [c3RectNode] (50, 50) :=
  ⟨claim_C4_traversal_order_and_pruning.1 c3Doc (50, 50),
    claim_C4_traversal_order_and_pruning.2.1 "unsupported" [] [c3RectNode] (50, 50) rfl,
    claim_C4_traversal_order_and_pruning.2.2.1 c3RectNode (50, 50) ["r1"] "r1"
      c3RectNode_eval (by decide) (by decide) (by decide),
    claim_C4_traversal_order_and_pruning.2.2.2 (nsSvg ++ "g") [] [c3RectNode] (50, 50)
      in_group (50, 50) rfl (by decide) (by decide)⟩

/-- The `get_events` loop with an arbitrary accumulator: it appends the
successfully constructed events in queue order and logs the failing samples
in queue order. -/
theorem get_events_foldl_spec (s : SurfaceState) :
    ∀ (q : List PGEvent) (acc : List Event × List PGEvent),
      q.foldl (get_events_step s) acc =
        (acc.1 ++ q.filterMap (constructResult s), acc.2 ++ q.filter (constructFails s))
  | [], acc => by simp
  | e :: es, acc => by
    rw [List.foldl_cons, get_events_foldl_spec s es]
    rw [List.filterMap_cons, List.filter_cons]
    cases hm : EVENT_MAP e.type with
    | none => simp [get_events_step, constructResult, constructFails, hm]
    | some f =>
      cases hf : f s e with
      | ok ev => simp [get_events_step, constructResult, constructFails, hm, hf]
      | error err => simp [get_events_step, constructResult, constructFails, hm, hf]

/-- `get_events` returns exactly the successful constructions in queue order
and logs exactly the failing samples in queue order. -/
theorem get_events_spec (s : SurfaceState) (q : List PGEvent) :
    get_events s q = (q.filterMap (constructResult s), q.filter (constructFails s)) := by
  have h := get_events_foldl_spec s q ([], [])
  simpa [get_events] using h

/-- When every sample in the queue has a mapped constructor, successes and
failures partition the batch. -/
theorem events_length_partition (s : SurfaceState) :
    ∀ q : List PGEvent, (∀ e ∈ q, (EVENT_MAP e.type).isSome = true) →
      (q.filterMap (constructResult s)).length + (q.filter (constructFails s)).length
        = q.length
  | [], _ => rfl
  | e :: es, h => by
    have he := h e (List.mem_cons_self e es)
    have ih := events_length_partition s es (fun x hx => h x (List.mem_cons_of_mem e hx))
    rw [List.filterMap_cons, List.filter_cons]
    cases hm : EVENT_MAP e.type with
    | none => rw [hm] at he; cases he
    | some f =>
      cases hf : f s e with
      | ok ev =>
        simp [constructResult, constructFails, hm, hf]
        omega
      | error err =>
        simp [constructResult, constructFails, hm, hf]
        omega

/-- C5: for a batch of raw samples each of which has a mapped constructor,
with exactly one sample whose constructor raises, `get_events` returns the
`N - 1` successfully constructed events in their original queue order (it is
exactly the in-order `filterMap` of the per-sample outcomes), logs exactly
the one failing sample, and does not abort the remainder of the batch. -/
theorem claim_C5_poll_events_error_isolation (s : SurfaceState) (q : List PGEvent)
    (hmap : ∀ e ∈ q, (EVENT_MAP e.type).isSome = true)
    (hone : (q.filter (constructFails s)).length = 1) :
    (get_events s q).1 = q.filterMap (constructResult s) ∧
    (get_events s q).1.length = q.length - 1 ∧
    (get_events s q).2 = q.filter (constructFails s) ∧
    (get_events s q).2.length = 1 := by
  rw [get_events_spec]
  have hpart := events_length_partition s q hmap
  refine ⟨rfl, ?_, rfl, hone⟩
  show (q.filterMap (constructResult s)).length = q.length - 1
  omega

/-- Witness for C5 at a concrete input: a three-sample batch (key down,
mouse down with scroll-wheel button 4, quit) against a fresh 100×100
surface; the middle constructor raises `KeyError`. -/
theorem claim_C5_poll_events_error_isolation_witness :
    (get_events (mkSurface (100, 100)) c5Queue).1 =
      c5Queue.filterMap (constructResult (mkSurface (100, 100))) ∧
    (get_events (mkSurface (100, 100)) c5Queue).1.length = c5Queue.length - 1 ∧
    (get_events (mkSurface (100, 100)) c5Queue).2 =
      c5Queue.filter (constructFails (mkSurface (100, 100))) ∧
    (get_events (mkSurface (100, 100)) c5Queue).2.length = 1 :=
  claim_C5_poll_events_error_isolation (mkSurface (100, 100)) c5Queue
    (by decide)
    (by
      simp [c5Queue, c5KeyEvent, c5BadMouseEvent, c5QuitEvent, constructFails,
        EVENT_MAP, PYGAME_KEYDOWN, PYGAME_KEYUP, PYGAME_QUIT, PYGAME_MOUSEDOWN,
        PYGAME_MOUSEUP, PYGAME_MOUSEMOTION, PYGAME_WINDOWRESIZE, PYGAME_WINDOWMOVE,
        PYGAME_WINDOWFOCUS, PYGAME_USEREVENT, create_key_event, create_mouse_button_event,
        create_window_close_event, MOUSE_BUTTON_MAP, SurfaceState.pixel_to_svg,
        SurfaceState.surface_position, mkSurface, pyDiv, elements_under,
        elements_under_list, supportedShape, nsSvg, in_svg, in_group, parse_transform,
        Node.get, getAttr, List.find?, Option.map, Option.mapM, List.filter]
      try norm_num)

/-- Witness for C9 at a concrete input: root `width="100.5"`. -/
theorem claim_C9_fractional_root_geometry_rejected_witness :
    ∃ e, SurfaceState.update (mkSurface (1, 1))
      (.elem (nsSvg ++ "svg") [("width", "100.5"), ("height", "100")] []) = .error e :=
  claim_C9_fractional_root_geometry_rejected (mkSurface (1, 1)) (nsSvg ++ "svg")
    [("width", "100.5"), ("height", "100")] []
    (by decide)
    ⟨"width", by simp, "100.5", by decide,
      ⟨"100", "5", rfl, by decide, by decide, by decide, by decide, by decide⟩⟩

/-- C1: the claim says `pixel_scale_to_svg_scale((dx, dy))` returns the
vector scaled by `1/scaling_factor`. The code (and this evaluation of it)
multiplies by `scaling_factor` instead: with `scaling_factor = 2` the
displacement `(10, 10)` is mapped to `(20, 20)`, not to the `(5, 5)` the
claim requires — even though the function's own docstring says it scales
from pixel space to svg space, the direction for which `pixel_to_svg`
divides by the scaling factor. -/
theorem claim_C1_code_evaluation :
    SurfaceState.pixel_scale_to_svg_scale c1DemoState (10, 10) = (20, 20) ∧
      SurfaceState.pixel_scale_to_svg_scale c1DemoState (10, 10) ≠ ((10 : ℚ) / 2, (10 : ℚ) / 2) := by
  constructor
  · show ((10 : ℚ) * c1DemoState.scaling_factor, (10 : ℚ) * c1DemoState.scaling_factor) = _
    norm_num [c1DemoState, mkSurface]
  · show ((10 : ℚ) * c1DemoState.scaling_factor, (10 : ℚ) * c1DemoState.scaling_factor) ≠ _
    norm_num [c1DemoState, mkSurface]

/-- C2: after a render pass onto any window, with positive root width and
height, the derived `scaling_factor` is exactly `min(Bw/W, Bh/H)` for the
render-buffer size `(Bw, Bh)`, and `surface_offset` centers the scaled image
in the buffer. -/
theorem claim_C2_scaling_and_centering (s : SurfaceState) (win : ℚ × ℚ)
    (hW : 0 < s.svg_size.1) (hH : 0 < s.svg_size.2) :
    ∃ s', s.render win = .ok s' ∧
      s'.scaling_factor =
        min (s.surface_size.1 / (s.svg_size.1 : ℚ)) (s.surface_size.2 / (s.svg_size.2 : ℚ)) ∧
      s'.surface_offset.1 = (s.surface_size.1 - (s.svg_size.1 : ℚ) * s'.scaling_factor) / 2 ∧
      s'.surface_offset.2 = (s.surface_size.2 - (s.svg_size.2 : ℚ) * s'.scaling_factor) / 2 := by
  have hW' : ((s.svg_size.1 : ℚ)) ≠ 0 := by exact_mod_cast hW.ne'
  have hH' : ((s.svg_size.2 : ℚ)) ≠ 0 := by exact_mod_cast hH.ne'
  set sf : ℚ :=
    min (s.surface_size.1 / (s.svg_size.1 : ℚ)) (s.surface_size.2 / (s.svg_size.2 : ℚ)) with hsf
  refine ⟨{ s with
            window_size := win
            scaling_factor := sf
            surface_offset :=
              ((s.surface_size.1 - (s.svg_size.1 : ℚ) * sf) / 2,
               (s.surface_size.2 - (s.svg_size.2 : ℚ) * sf) / 2) }, ?_, ?_, ?_, ?_⟩ <;>
    simp [SurfaceState.render, SurfaceState.svg_to_npim_transform, pyDiv, hW', hH', hsf]

/-- Witness for C2 at a concrete input: a 100×100 document rendered to a
300×150 buffer. -/
theorem claim_C2_scaling_and_centering_witness :
    ∃ s', SurfaceState.render { mkSurface (300, 150) with svg_size := (100, 100) } (400, 400) = .ok s' ∧
      s'.scaling_factor = min ((300 : ℚ) / ((100 : ℤ) : ℚ)) ((150 : ℚ) / ((100 : ℤ) : ℚ)) ∧
      s'.surface_offset.1 = ((300 : ℚ) - ((100 : ℤ) : ℚ) * s'.scaling_factor) / 2 ∧
      s'.surface_offset.2 = ((150 : ℚ) - ((100 : ℤ) : ℚ) * s'.scaling_factor) / 2 :=
  claim_C2_scaling_and_centering
    { mkSurface (300, 150) with svg_size := (100, 100) } (400, 400)
    (by norm_num) (by norm_num)

/-- C7 (amended): `svg_to_pixel` and `svg_scale_to_pixel_scale` never return
a value; both always raise — but the exception is Python's built-in
`NotImplementedError`, not a `NotSupportedError` class (no such class exists
anywhere in the source). -/
theorem claim_C7_always_raise_not_implemented (s : SurfaceState) (p : ℚ × ℚ) :
    s.svg_to_pixel p = .error .notImplementedError ∧
      s.svg_scale_to_pixel_scale p = .error .notImplementedError :=
  ⟨rfl, rfl⟩

/-- Witness for C7 at a concrete input. -/
theorem claim_C7_always_raise_not_implemented_witness :
    SurfaceState.svg_to_pixel (mkSurface (640, 480)) (1, 2) = .error .notImplementedError ∧
      SurfaceState.svg_scale_to_pixel_scale (mkSurface (640, 480)) (1, 2) = .error .notImplementedError :=
  claim_C7_always_raise_not_implemented (mkSurface (640, 480)) (1, 2)

/-- C7 counterexample to the claim as stated: at a concrete input,
`svg_to_pixel` does not signal `NotSupportedError` (it signals
`NotImplementedError`). -/
theorem claim_C7_counterexample :
    SurfaceState.svg_to_pixel (mkSurface (640, 480)) (0, 0) ≠
      Except.error PyError.notSupportedError := by
  simp [SurfaceState.svg_to_pixel]

/-- C8: when the requested size equals the stored configuration size, the
`window_size` setter is a complete no-op: the state is unchanged — in
particular no new OS window size is installed, the watcher generation does
not change (no watcher is re-attached), the configuration is untouched and
no synthetic resize event is posted. -/
theorem claim_C8_set_window_size_noop (v : ViewState) (value : ℚ × ℚ)
    (h : (v.window_config.width, v.window_config.height) = value) :
    v.set_window_size value = v ∧
      (v.set_window_size value).window = v.window ∧
      (v.set_window_size value).pwc_generation = v.pwc_generation ∧
      (v.set_window_size value).window_config = v.window_config ∧
      (v.set_window_size value).posted = v.posted := by
  have hv : v.set_window_size value = v := by
    unfold ViewState.set_window_size
    rw [if_neg]
    simp [h]
  exact ⟨hv, by rw [hv], by rw [hv], by rw [hv], by rw [hv]⟩

/-- Witness for C8 at a concrete input: requesting the current 640×480. -/
theorem claim_C8_set_window_size_noop_witness :
    c8DemoView.set_window_size (640, 480) = c8DemoView ∧
      (c8DemoView.set_window_size (640, 480)).window = c8DemoView.window ∧
      (c8DemoView.set_window_size (640, 480)).pwc_generation = c8DemoView.pwc_generation ∧
      (c8DemoView.set_window_size (640, 480)).window_config = c8DemoView.window_config ∧
      (c8DemoView.set_window_size (640, 480)).posted = c8DemoView.posted :=
  claim_C8_set_window_size_noop c8DemoView (640, 480) rfl

end StarRayPygame
